import Mathlib

/-
  Verification of the favorited-product change-detection and fan-out pipeline.

  Shallow embedding of:
  - `handleFavorites` (internal/favorites/consumer.go): per-batch consumer that
    diffs each incoming product snapshot against the persisted record, writes a
    PriceStockLog on change, updates the persisted price/stock blocks, and fans
    out one notification attempt per favoriting user on a price drop.
  - `handleProducts` (analysis service): per-batch consumer that creates new
    products, marks out-of-stock products inactive, forwards favorited active
    products to the favorites pipeline, and rewrites all other existing products.

  Modelling conventions:
  - Go `float64` JSON numbers are modelled as `Rat`; the pipeline performs no
    arithmetic on them, only equality and order comparison, so exact rationals
    are a faithful abstraction of the parsed values.
  - The `%.2f` / `%.0f` string formatting of log fields and of the notification
    message is presentation only; the log/attempt records carry the numeric
    values that the source formats.
  - Fallible external calls (gRPC dial, store reads, gateway dispatch) are
    modelled by an `Oracle` of outcome functions; store writes in the source
    have their errors ignored (`db.Create`/`db.Updates` results are unchecked)
    and are modelled as applied to the state.
  - `logrus.Fatal` on dial failure is recorded as a `fatal` flag in the trace.
-/

namespace Scraper

/-- A scalar value inside a loosely-typed JSON object, as obtained by
`json.Unmarshal` into `map[string]interface{}`. -/
inductive JVal where
  | num (q : Rat)
  | str (s : String)
  | boolean (b : Bool)
  | null
deriving DecidableEq

/-- A serialized JSON blob (a `datatypes.JSON` column such as `PriceInfo` or
`StockInfo`): either malformed bytes or a JSON object with named fields. -/
inductive Blob where
  | invalid
  | obj (fields : List (String × JVal))
deriving DecidableEq

/-- `json.Unmarshal` of a blob into a `map[string]interface{}`: fails on
malformed bytes, otherwise yields the field list. -/
def unmarshalObj : Blob → Option (List (String × JVal))
  | .invalid => none
  | .obj fs => some fs

/-- Extract a field from an unmarshaled object and type-assert it to `float64`
(`m[key].(float64)` in Go): `none` when the key is absent or non-numeric. -/
def getNum (fs : List (String × JVal)) (key : String) : Option Rat :=
  match fs.lookup key with
  | some (JVal.num q) => some q
  | _ => none

/-- `priceInfo["originalPrice"].(float64)` after unmarshaling the price blob. -/
def parseOriginalPrice (b : Blob) : Option Rat :=
  (unmarshalObj b).bind (fun fs => getNum fs "originalPrice")

/-- `stockInfo["stock"].(float64)` after unmarshaling the stock blob. -/
def parseStockVal (b : Blob) : Option Rat :=
  (unmarshalObj b).bind (fun fs => getNum fs "stock")

/-- Modelled from the spec: the price block's `discountedPrice` numeric field
(§4.1 step 3 and §6 of the spec name it as a parsed field of the price block).
The source (`handleFavorites`) never reads this key; the definition exists to
state spec-level claims about it. -/
def parseDiscountedPrice (b : Blob) : Option Rat :=
  (unmarshalObj b).bind (fun fs => getNum fs "discountedPrice")

/-- `models.Product`: the persisted product record / inbound snapshot. Fields
mirror the Go struct (the columns touched by the pipeline, plus representative
columns it never touches: `video`, `topReviews`, `similarProducts`, `price`). -/
structure Product where
  id : Nat
  categoryPath : String
  name : String
  images : Blob
  video : String
  seller : Blob
  brand : Blob
  ratingScore : Blob
  favoritesCount : String
  commentsCount : String
  addToCartEvents : String
  views : String
  orders : String
  topReviews : Blob
  sizeRecommendation : String
  estimatedDelivery : Blob
  stockInfo : Blob
  priceInfo : Blob
  similarProducts : Blob
  attributes : Blob
  otherSellers : Blob
  isActive : Bool
  isFavorite : Bool
  price : Rat
deriving DecidableEq

/-- `models.PriceStockLog`: the immutable change-audit row. The source stores
the prices/stocks as `%.2f` / `%.0f` formatted strings of these values. -/
structure PriceStockLog where
  productId : Nat
  oldPrice : Rat
  newPrice : Rat
  oldStock : Rat
  newStock : Rat
  changeTime : Nat
deriving DecidableEq

/-- `models.UserFavorite`: a (user, product) favorite relation. -/
structure UserFavorite where
  userId : Nat
  productId : Nat
  addedAt : Nat
deriving DecidableEq

/-- `models.User` (the fields the pipeline reads). -/
structure User where
  id : Nat
  email : String
deriving DecidableEq

/-- The Change Store state: products, change logs, favorite relations, users. -/
structure State where
  products : List Product
  changeLogs : List PriceStockLog
  favorites : List UserFavorite
  users : List User
deriving DecidableEq

/-- One `SendNotification` RPC attempt: the request fields (`user_id`,
`product_id` truncated to `uint32`, and the message's numeric/name components)
plus the gateway outcome (`delivered = false` when the RPC returned an error,
which the source only logs). -/
structure Attempt where
  userId : Nat
  productId : Nat
  oldPrice : Rat
  newPrice : Rat
  productName : String
  delivered : Bool
deriving DecidableEq

/-- Observable events of one handler invocation: product ids created
(`db.Create` on products), product ids updated (`db.Updates`), change rows
created (`db.Create` on PriceStockLog), product ids for which the price-drop
fan-out branch was entered, notification attempts issued, products forwarded
to the FAVORITE_PRODUCTS topic, and whether a fatal log was raised. -/
structure Trace where
  creates : List Nat
  updates : List Nat
  logs : List PriceStockLog
  fanouts : List Nat
  attempts : List Attempt
  forwarded : List Product
  fatal : Bool
deriving DecidableEq

def Trace.empty : Trace := ⟨[], [], [], [], [], [], false⟩

def Trace.append (t u : Trace) : Trace :=
  ⟨t.creates ++ u.creates, t.updates ++ u.updates, t.logs ++ u.logs,
   t.fanouts ++ u.fanouts, t.attempts ++ u.attempts, t.forwarded ++ u.forwarded,
   t.fatal || u.fatal⟩

/-- Outcomes of the fallible external calls, per argument: gRPC dial success,
`db.First` on products returning a (non-not-found, for the analysis service) or
any (for the favorites consumer, which treats all errors alike) error,
`db.Where(...).Find` on user_favorites failing, `db.First` on users failing,
and `SendNotification` returning an error. -/
structure Oracle where
  dialOk : Bool
  findProductErr : Nat → Bool
  findFavoritesErr : Nat → Bool
  findUserErr : Nat → Bool
  dispatchErr : Nat → Nat → Bool

/-- `db.First(&existingProduct, id)`: primary-key lookup in the store. -/
def findProduct (st : State) (id : Nat) : Option Product :=
  st.products.find? (fun p => p.id == id)

/-- `db.Where("product_id = ?", id).Find(&favorites)`. -/
def favoritesFor (st : State) (pid : Nat) : List UserFavorite :=
  st.favorites.filter (fun f => f.productId == pid)

/-- `db.Model(&models.UserFavorite{}).Where("product_id = ?", id).Count(&n)`. -/
def countFavorites (st : State) (pid : Nat) : Nat :=
  (favoritesFor st pid).length

/-- `db.First(&user, uid)`: user lookup in the store. -/
def findUser (st : State) (uid : Nat) : Option User :=
  st.users.find? (fun u => u.id == uid)

/-- The favorites consumer's product lookup: any `db.First` error (not-found or
store failure, both handled by the same branch in the source) yields `none`. -/
def favLookup (ora : Oracle) (st : State) (id : Nat) : Option Product :=
  if ora.findProductErr id then none else findProduct st id

/-- User resolution during fan-out: `db.First(&user, favorite.UserID)` with its
error branch (logged and skipped in the source). -/
def favUserLookup (ora : Oracle) (st : State) (uid : Nat) : Option User :=
  if ora.findUserErr uid then none else findUser st uid

/-- The four price/stock extractions of the favorites consumer: old and new
`originalPrice`, old and new `stock`. The source checks the four `ok` flags
together and skips the item when any fails. -/
def parseFour (existing updated : Product) : Option (Rat × Rat × Rat × Rat) :=
  match parseOriginalPrice existing.priceInfo, parseOriginalPrice updated.priceInfo,
        parseStockVal existing.stockInfo, parseStockVal updated.stockInfo with
  | some oldP, some newP, some oldS, some newS => some (oldP, newP, oldS, newS)
  | _, _, _, _ => none

/-- `db.Create(&priceLog)`: append one change row (result unchecked in source). -/
def addLog (st : State) (l : PriceStockLog) : State :=
  { st with changeLogs := st.changeLogs ++ [l] }

/-- `db.Model(&existingProduct).Updates(map{"price_info": ..., "stock_info": ...})`:
overwrite exactly the two blob columns of the record with the given id. -/
def setPriceStock (st : State) (pid : Nat) (pb sb : Blob) : State :=
  { st with products := st.products.map (fun q =>
      if q.id == pid then { q with priceInfo := pb, stockInfo := sb } else q) }

/-- Resolve one favorite's user and issue the `SendNotification` RPC: `none`
when the user lookup fails (logged, skipped — no attempt); otherwise one
attempt whose outcome is given by the dispatch oracle (only logged). -/
def resolveAndSend (ora : Oracle) (st : State) (existing : Product)
    (oldP newP : Rat) (f : UserFavorite) : Option Attempt :=
  match favUserLookup ora st f.userId with
  | none => none
  | some u =>
      some { userId := u.id, productId := existing.id % 2 ^ 32,
             oldPrice := oldP, newPrice := newP, productName := existing.name,
             delivered := !(ora.dispatchErr u.id (existing.id % 2 ^ 32)) }

/-- One iteration of the favorites consumer's product loop
(internal/favorites/consumer.go, lines 46-145): lookup, parse, diff, persist,
and fan out on a price drop. Returns the new store state and the trace. -/
def processFavItem (ora : Oracle) (now : Nat) (st : State) (updated : Product) :
    State × Trace :=
  match favLookup ora st updated.id with
  | none => (st, Trace.empty)
  | some existing =>
    match parseFour existing updated with
    | none => (st, Trace.empty)
    | some (oldP, newP, oldS, newS) =>
      if oldP ≠ newP ∨ oldS ≠ newS then
        let l : PriceStockLog :=
          ⟨existing.id, oldP, newP, oldS, newS, now⟩
        let st1 := setPriceStock (addLog st l) existing.id
          updated.priceInfo updated.stockInfo
        if newP < oldP then
          if ora.findFavoritesErr existing.id then
            (st1, { Trace.empty with
                    logs := [l], updates := [existing.id],
                    fanouts := [existing.id] })
          else
            (st1, { Trace.empty with
                    logs := [l], updates := [existing.id],
                    fanouts := [existing.id],
                    attempts := (favoritesFor st1 existing.id).filterMap
                      (resolveAndSend ora st1 existing oldP newP) })
        else
          (st1, { Trace.empty with logs := [l], updates := [existing.id] })
      else (st, Trace.empty)

/-- The favorites consumer's loop over the decoded batch, sequential, each
item's failure isolated to itself (`continue` in the source). -/
def processFavBatch (ora : Oracle) (now : Nat) :
    List Product → State → State × Trace
  | [], st => (st, Trace.empty)
  | p :: rest, st =>
    let r1 := processFavItem ora now st p
    let r2 := processFavBatch ora now rest r1.1
    (r2.1, Trace.append r1.2 r2.2)

/-- An inbound bus message: either malformed bytes or a JSON array of product
snapshots. -/
inductive Payload where
  | malformed
  | wellFormed (items : List Product)
deriving DecidableEq

/-- `json.Unmarshal(data, &products)` on the raw message. -/
def decodePayload : Payload → Option (List Product)
  | .malformed => none
  | .wellFormed items => some items

/-- `handleFavorites` (internal/favorites/consumer.go): dial the notification
gateway (on error: `logrus.Fatal`, modelled as the `fatal` flag, and nothing is
processed), decode the batch (on error: logged, nothing processed), then run
the per-item loop. -/
def handleFavorites (ora : Oracle) (now : Nat) (payload : Payload) (st : State) :
    State × Trace :=
  if ora.dialOk then
    match decodePayload payload with
    | none => (st, Trace.empty)
    | some products => processFavBatch ora now products st
  else
    (st, { Trace.empty with fatal := true })

/-- The analysis service's `db.Model(&existing).Updates(...)` call: overwrite
exactly the nineteen listed columns of the record with the given id from the
incoming snapshot (note: `video`, `top_reviews`, `similar_products` and
`price` are not in the map and keep their stored values). -/
def updateAllFields (st : State) (pid : Nat) (p : Product) : State :=
  { st with products := st.products.map (fun q =>
      if q.id == pid then
        { q with
          name := p.name, categoryPath := p.categoryPath,
          images := p.images, seller := p.seller, brand := p.brand,
          ratingScore := p.ratingScore, favoritesCount := p.favoritesCount,
          views := p.views, orders := p.orders, stockInfo := p.stockInfo,
          priceInfo := p.priceInfo, attributes := p.attributes,
          isActive := p.isActive, isFavorite := p.isFavorite,
          commentsCount := p.commentsCount,
          addToCartEvents := p.addToCartEvents,
          sizeRecommendation := p.sizeRecommendation,
          estimatedDelivery := p.estimatedDelivery,
          otherSellers := p.otherSellers }
      else q) }

/-- `db.Create(&p)` for a new product (result unchecked in source). -/
def createProduct (st : State) (p : Product) : State :=
  { st with products := st.products ++ [p] }

/-- The analysis service's out-of-stock check on an existing product's incoming
snapshot: only when the stock blob unmarshals and its `stock` field asserts to
`float64` and equals 0 is the local copy marked inactive. -/
def markIfOutOfStock (p : Product) : Product :=
  match parseStockVal p.stockInfo with
  | some s => if s = 0 then { p with isActive := false } else p
  | none => p

/-- One iteration of the analysis service's product loop (`handleProducts`):
returns the new state, the trace, and the products appended to the batch's
`favoritedProducts` accumulator by this item. -/
def processProdItem (ora : Oracle) (st : State) (p : Product) :
    State × Trace × List Product :=
  if ora.findProductErr p.id then
    (st, Trace.empty, [])
  else
    match findProduct st p.id with
    | none =>
      let st1 := createProduct st p
      let fav :=
        if 0 < countFavorites st1 p.id ∧ p.isActive = true ∧ p.isFavorite = true
        then [p] else []
      (st1, { Trace.empty with creates := [p.id] }, fav)
    | some existing =>
      let p1 := markIfOutOfStock p
      if p1.isFavorite = true ∧ p1.isActive = true ∧ 0 < countFavorites st p1.id
      then (st, Trace.empty, [p1])
      else
        (updateAllFields st existing.id p1,
         { Trace.empty with updates := [existing.id] }, [])

/-- The analysis service's loop over the decoded batch, accumulating the
favorited products to forward. -/
def processProdBatch (ora : Oracle) :
    List Product → State → State × Trace × List Product
  | [], st => (st, Trace.empty, [])
  | p :: rest, st =>
    let r1 := processProdItem ora st p
    let r2 := processProdBatch ora rest r1.1
    (r2.1, Trace.append r1.2.1 r2.2.1, r1.2.2 ++ r2.2.2)

/-- `handleProducts` (analysis service): decode the batch (on error: logged,
nothing processed), run the per-item loop, and forward the accumulated
favorited products to the FAVORITE_PRODUCTS topic when nonempty (send errors
are only logged). -/
def handleProducts (ora : Oracle) (payload : Payload) (st : State) :
    State × Trace :=
  match decodePayload payload with
  | none => (st, Trace.empty)
  | some products =>
    let r := processProdBatch ora products st
    (r.1, { r.2.1 with forwarded := r.2.2 })

/-- The composed pipeline: the analysis service processes the inbound batch,
and the products it forwarded on the FAVORITE_PRODUCTS topic (when any) are
consumed by the favorites consumer (marshal/unmarshal of the forwarded array
round-trips). -/
def pipeline (oraA oraF : Oracle) (now : Nat) (payload : Payload) (st : State) :
    State × Trace :=
  let r1 := handleProducts oraA payload st
  if r1.2.forwarded.isEmpty then r1
  else
    let r2 := handleFavorites oraF now (Payload.wellFormed r1.2.forwarded) r1.1
    (r2.1, Trace.append r1.2 r2.2)

/-! Helper lemmas about traces and the store operations. -/

theorem trace_empty_append (t : Trace) : Trace.append Trace.empty t = t := by
  cases t; simp [Trace.append, Trace.empty]

theorem trace_append_empty (t : Trace) : Trace.append t Trace.empty = t := by
  cases t; simp [Trace.append, Trace.empty]

theorem trace_append_assoc (t u v : Trace) :
    Trace.append (Trace.append t u) v = Trace.append t (Trace.append u v) := by
  cases t; cases u; cases v
  simp [Trace.append, List.append_assoc, Bool.or_assoc]

theorem trace_append_logs (t u : Trace) :
    (Trace.append t u).logs = t.logs ++ u.logs := rfl

theorem trace_append_attempts (t u : Trace) :
    (Trace.append t u).attempts = t.attempts ++ u.attempts := rfl

theorem trace_append_creates (t u : Trace) :
    (Trace.append t u).creates = t.creates ++ u.creates := rfl

theorem trace_append_updates (t u : Trace) :
    (Trace.append t u).updates = t.updates ++ u.updates := rfl

theorem trace_append_fatal (t u : Trace) :
    (Trace.append t u).fatal = (t.fatal || u.fatal) := rfl

theorem findProduct_id (st : State) (i : Nat) (q : Product)
    (h : findProduct st i = some q) : q.id = i := by
  unfold findProduct at h
  have := List.find?_some h
  simpa using this

theorem favUserLookup_id (ora : Oracle) (st : State) (uid : Nat) (u : User)
    (h : favUserLookup ora st uid = some u) : u.id = uid := by
  unfold favUserLookup at h
  split at h
  · exact absurd h (by simp)
  · unfold findUser at h
    have := List.find?_some h
    simpa using this

/-! Case analysis lemmas for the favorites consumer's per-item step. -/

/-- The audit row written in the changed case. -/
def favLog (existing : Product) (oldP newP oldS newS : Rat) (now : Nat) :
    PriceStockLog :=
  ⟨existing.id, oldP, newP, oldS, newS, now⟩

/-- The store state after the changed case's two writes. -/
def favNewState (st : State) (existing updated : Product)
    (l : PriceStockLog) : State :=
  setPriceStock (addLog st l) existing.id updated.priceInfo updated.stockInfo

/-- The trace of the changed case: one log row, one update, and — only on a
price drop — the fan-out with its attempts (none when the favorites query
fails). -/
def favTrace (ora : Oracle) (st1 : State) (existing : Product)
    (oldP newP : Rat) (l : PriceStockLog) : Trace :=
  if newP < oldP then
    if ora.findFavoritesErr existing.id then
      { Trace.empty with
        logs := [l], updates := [existing.id], fanouts := [existing.id] }
    else
      { Trace.empty with
        logs := [l], updates := [existing.id], fanouts := [existing.id],
        attempts := (favoritesFor st1 existing.id).filterMap
          (resolveAndSend ora st1 existing oldP newP) }
  else
    { Trace.empty with logs := [l], updates := [existing.id] }

theorem processFavItem_skip (ora : Oracle) (now : Nat) (st : State)
    (updated : Product) (h : favLookup ora st updated.id = none) :
    processFavItem ora now st updated = (st, Trace.empty) := by
  unfold processFavItem
  rw [h]

theorem processFavItem_parseFail (ora : Oracle) (now : Nat) (st : State)
    (updated existing : Product)
    (h : favLookup ora st updated.id = some existing)
    (hp : parseFour existing updated = none) :
    processFavItem ora now st updated = (st, Trace.empty) := by
  unfold processFavItem
  rw [h]
  simp only [hp]

theorem processFavItem_unchanged (ora : Oracle) (now : Nat) (st : State)
    (updated existing : Product) (oldP newP oldS newS : Rat)
    (h : favLookup ora st updated.id = some existing)
    (hp : parseFour existing updated = some (oldP, newP, oldS, newS))
    (hpe : oldP = newP) (hse : oldS = newS) :
    processFavItem ora now st updated = (st, Trace.empty) := by
  unfold processFavItem
  rw [h]
  simp only [hp]
  simp [hpe, hse]

theorem processFavItem_changed (ora : Oracle) (now : Nat) (st : State)
    (updated existing : Product) (oldP newP oldS newS : Rat)
    (h : favLookup ora st updated.id = some existing)
    (hp : parseFour existing updated = some (oldP, newP, oldS, newS))
    (hch : oldP ≠ newP ∨ oldS ≠ newS) :
    processFavItem ora now st updated =
      (favNewState st existing updated (favLog existing oldP newP oldS newS now),
       favTrace ora
         (favNewState st existing updated (favLog existing oldP newP oldS newS now))
         existing oldP newP (favLog existing oldP newP oldS newS now)) := by
  unfold processFavItem favNewState favTrace favLog
  rw [h]
  simp only [hp]
  rw [if_pos hch]
  split
  · split <;> rfl
  · rfl

theorem favTrace_logs (ora : Oracle) (st1 : State) (existing : Product)
    (oldP newP : Rat) (l : PriceStockLog) :
    (favTrace ora st1 existing oldP newP l).logs = [l] := by
  unfold favTrace
  split
  · split <;> rfl
  · rfl

theorem favTrace_updates (ora : Oracle) (st1 : State) (existing : Product)
    (oldP newP : Rat) (l : PriceStockLog) :
    (favTrace ora st1 existing oldP newP l).updates = [existing.id] := by
  unfold favTrace
  split
  · split <;> rfl
  · rfl

theorem favTrace_fatal (ora : Oracle) (st1 : State) (existing : Product)
    (oldP newP : Rat) (l : PriceStockLog) :
    (favTrace ora st1 existing oldP newP l).fatal = false := by
  unfold favTrace
  split
  · split <;> rfl
  · rfl

theorem favTrace_fanouts (ora : Oracle) (st1 : State) (existing : Product)
    (oldP newP : Rat) (l : PriceStockLog) :
    (favTrace ora st1 existing oldP newP l).fanouts =
      if newP < oldP then [existing.id] else [] := by
  unfold favTrace
  split
  · split <;> rfl
  · rfl

theorem favTrace_attempts_no_drop (ora : Oracle) (st1 : State)
    (existing : Product) (oldP newP : Rat) (l : PriceStockLog)
    (h : ¬ newP < oldP) :
    (favTrace ora st1 existing oldP newP l).attempts = [] := by
  unfold favTrace
  rw [if_neg h]
  rfl

theorem favTrace_attempts_favErr (ora : Oracle) (st1 : State)
    (existing : Product) (oldP newP : Rat) (l : PriceStockLog)
    (h : ora.findFavoritesErr existing.id = true) :
    (favTrace ora st1 existing oldP newP l).attempts = [] := by
  unfold favTrace
  split
  · simp [h, Trace.empty]
  · rfl

theorem favTrace_attempts_drop (ora : Oracle) (st1 : State)
    (existing : Product) (oldP newP : Rat) (l : PriceStockLog)
    (hd : newP < oldP) (h : ora.findFavoritesErr existing.id = false) :
    (favTrace ora st1 existing oldP newP l).attempts =
      (favoritesFor st1 existing.id).filterMap
        (resolveAndSend ora st1 existing oldP newP) := by
  unfold favTrace
  rw [if_pos hd, if_neg (by simp [h])]

theorem favTrace_attempts_ne (ora : Oracle) (st1 : State) (existing : Product)
    (oldP newP : Rat) (l : PriceStockLog)
    (h : (favTrace ora st1 existing oldP newP l).attempts ≠ []) :
    newP < oldP := by
  by_contra hn
  exact h (favTrace_attempts_no_drop ora st1 existing oldP newP l hn)

/-- The state written by the changed case, unchanged fields made explicit. -/
theorem favNewState_eq (st : State) (existing updated : Product)
    (l : PriceStockLog) :
    (favNewState st existing updated l).changeLogs = st.changeLogs ++ [l] ∧
    (favNewState st existing updated l).products =
      st.products.map (fun q =>
        if q.id == existing.id then
          { q with priceInfo := updated.priceInfo,
                   stockInfo := updated.stockInfo }
        else q) ∧
    (favNewState st existing updated l).favorites = st.favorites ∧
    (favNewState st existing updated l).users = st.users := by
  unfold favNewState setPriceStock addLog
  exact ⟨rfl, rfl, rfl, rfl⟩

/-- Exhaustive case analysis of the favorites consumer's per-item step: either
the item is a no-op on the store (skipped, parse-failed, or unchanged), or it
is a changed item with its two writes and its trace. -/
theorem processFavItem_elim (ora : Oracle) (now : Nat) (st : State)
    (p : Product) :
    processFavItem ora now st p = (st, Trace.empty) ∨
    ∃ existing oldP newP oldS newS,
      favLookup ora st p.id = some existing ∧
      parseFour existing p = some (oldP, newP, oldS, newS) ∧
      (oldP ≠ newP ∨ oldS ≠ newS) ∧
      processFavItem ora now st p =
        (favNewState st existing p (favLog existing oldP newP oldS newS now),
         favTrace ora
           (favNewState st existing p (favLog existing oldP newP oldS newS now))
           existing oldP newP (favLog existing oldP newP oldS newS now)) := by
  have hopt : favLookup ora st p.id = none ∨
      ∃ existing, favLookup ora st p.id = some existing := by
    cases favLookup ora st p.id with
    | none => exact Or.inl rfl
    | some q => exact Or.inr ⟨q, rfl⟩
  rcases hopt with hf | ⟨existing, hf⟩
  · exact Or.inl (processFavItem_skip ora now st p hf)
  · have hoptp : parseFour existing p = none ∨
        ∃ v, parseFour existing p = some v := by
      cases parseFour existing p with
      | none => exact Or.inl rfl
      | some v => exact Or.inr ⟨v, rfl⟩
    rcases hoptp with hp | ⟨⟨oldP, newP, oldS, newS⟩, hp⟩
    · exact Or.inl (processFavItem_parseFail ora now st p existing hf hp)
    · by_cases hch : oldP ≠ newP ∨ oldS ≠ newS
      · exact Or.inr ⟨existing, oldP, newP, oldS, newS, hf, hp, hch,
          processFavItem_changed ora now st p existing oldP newP oldS newS
            hf hp hch⟩
      · push_neg at hch
        exact Or.inl (processFavItem_unchanged ora now st p existing
          oldP newP oldS newS hf hp hch.1 hch.2)

theorem processFavBatch_cons (ora : Oracle) (now : Nat) (p : Product)
    (rest : List Product) (st : State) :
    processFavBatch ora now (p :: rest) st =
      ((processFavBatch ora now rest (processFavItem ora now st p).1).1,
       Trace.append (processFavItem ora now st p).2
         (processFavBatch ora now rest (processFavItem ora now st p).1).2) :=
  rfl

/-- Sequential composition of batch processing: the items before and after any
split point contribute independently, each from the state the previous items
left behind. -/
theorem processFavBatch_append (ora : Oracle) (now : Nat)
    (xs ys : List Product) (st : State) :
    processFavBatch ora now (xs ++ ys) st =
      ((processFavBatch ora now ys (processFavBatch ora now xs st).1).1,
       Trace.append (processFavBatch ora now xs st).2
         (processFavBatch ora now ys (processFavBatch ora now xs st).1).2) := by
  induction xs generalizing st with
  | nil => simp [processFavBatch, trace_empty_append]
  | cons p t ih =>
    simp only [List.cons_append, processFavBatch_cons, ih, trace_append_assoc]

theorem processFavItem_fatal (ora : Oracle) (now : Nat) (st : State)
    (p : Product) : (processFavItem ora now st p).2.fatal = false := by
  rcases processFavItem_elim ora now st p with h | ⟨ex, a, b, c, d, _, _, _, h⟩
  · rw [h]; rfl
  · rw [h]
    exact favTrace_fatal ora _ ex a b (favLog ex a b c d now)

theorem processFavBatch_fatal (ora : Oracle) (now : Nat)
    (items : List Product) (st : State) :
    (processFavBatch ora now items st).2.fatal = false := by
  induction items generalizing st with
  | nil => rfl
  | cons p t ih =>
    rw [processFavBatch_cons]
    simp [trace_append_fatal, processFavItem_fatal, ih]

theorem processFavItem_logs_nil (ora : Oracle) (now : Nat) (st : State)
    (p : Product) (h : (processFavItem ora now st p).2.logs = []) :
    processFavItem ora now st p = (st, Trace.empty) := by
  rcases processFavItem_elim ora now st p with he | ⟨ex, a, b, c, d, _, _, _, he⟩
  · exact he
  · rw [he] at h
    rw [show ((favNewState st ex p (favLog ex a b c d now),
        favTrace ora (favNewState st ex p (favLog ex a b c d now)) ex a b
          (favLog ex a b c d now))).2 =
        favTrace ora (favNewState st ex p (favLog ex a b c d now)) ex a b
          (favLog ex a b c d now) from rfl] at h
    rw [favTrace_logs] at h
    exact absurd h (by simp)

/-- A batch that wrote no change rows left the store untouched and dispatched
no notifications. -/
theorem processFavBatch_logs_nil (ora : Oracle) (now : Nat)
    (items : List Product) (st : State)
    (h : (processFavBatch ora now items st).2.logs = []) :
    processFavBatch ora now items st = (st, Trace.empty) := by
  induction items generalizing st with
  | nil => rfl
  | cons p t ih =>
    rw [processFavBatch_cons] at h ⊢
    simp only [trace_append_logs] at h
    obtain ⟨h1, h2⟩ := List.append_eq_nil.mp h
    have e1 := processFavItem_logs_nil ora now st p h1
    rw [e1] at h2 ⊢
    have e2 := ih st h2
    rw [e2]
    simp [trace_empty_append]

theorem resolveAndSend_none (ora : Oracle) (st : State) (existing : Product)
    (oldP newP : Rat) (f : UserFavorite)
    (h : favUserLookup ora st f.userId = none) :
    resolveAndSend ora st existing oldP newP f = none := by
  unfold resolveAndSend
  rw [h]

theorem resolveAndSend_some (ora : Oracle) (st : State) (existing : Product)
    (oldP newP : Rat) (f : UserFavorite) (u : User)
    (h : favUserLookup ora st f.userId = some u) :
    resolveAndSend ora st existing oldP newP f =
      some ⟨f.userId, existing.id % 2 ^ 32, oldP, newP, existing.name,
            !(ora.dispatchErr f.userId (existing.id % 2 ^ 32))⟩ := by
  unfold resolveAndSend
  rw [h]
  simp only [favUserLookup_id ora st f.userId u h]

/-- The user ids attempted are exactly the favoriting users whose identity
lookup succeeds, in order: a failed user lookup removes only that user. -/
theorem attempts_userIds (ora : Oracle) (st : State) (existing : Product)
    (oldP newP : Rat) (fs : List UserFavorite) :
    (fs.filterMap (resolveAndSend ora st existing oldP newP)).map
        (fun a => a.userId) =
      (fs.filter (fun f => (favUserLookup ora st f.userId).isSome)).map
        (fun f => f.userId) := by
  induction fs with
  | nil => rfl
  | cons f t ih =>
    cases hu : favUserLookup ora st f.userId with
    | none =>
      rw [List.filterMap_cons,
        resolveAndSend_none ora st existing oldP newP f hu, List.filter_cons]
      simp [hu, ih]
    | some u =>
      rw [List.filterMap_cons,
        resolveAndSend_some ora st existing oldP newP f u hu, List.filter_cons]
      simp [hu, ih]

theorem handleFavorites_noDial (ora : Oracle) (now : Nat) (payload : Payload)
    (st : State) (h : ora.dialOk = false) :
    handleFavorites ora now payload st =
      (st, { Trace.empty with fatal := true }) := by
  unfold handleFavorites
  simp [h]

theorem handleFavorites_malformed (ora : Oracle) (now : Nat) (st : State)
    (h : ora.dialOk = true) :
    handleFavorites ora now Payload.malformed st = (st, Trace.empty) := by
  unfold handleFavorites
  simp [h, decodePayload]

theorem handleFavorites_ok (ora : Oracle) (now : Nat) (items : List Product)
    (st : State) (h : ora.dialOk = true) :
    handleFavorites ora now (Payload.wellFormed items) st =
      processFavBatch ora now items st := by
  unfold handleFavorites
  simp [h, decodePayload]

theorem handleProducts_malformed (ora : Oracle) (st : State) :
    handleProducts ora Payload.malformed st = (st, Trace.empty) := rfl

theorem processProdItem_new (ora : Oracle) (st : State) (p : Product)
    (he : ora.findProductErr p.id = false)
    (hf : findProduct st p.id = none) :
    processProdItem ora st p =
      (createProduct st p, { Trace.empty with creates := [p.id] },
       if 0 < countFavorites (createProduct st p) p.id ∧ p.isActive = true ∧
          p.isFavorite = true
       then [p] else []) := by
  unfold processProdItem
  simp [he, hf]

theorem markIfOutOfStock_zero (p : Product)
    (hs : parseStockVal p.stockInfo = some 0) :
    markIfOutOfStock p = { p with isActive := false } := by
  unfold markIfOutOfStock
  rw [hs]
  simp

/-- An existing product whose incoming snapshot parses to stock 0 is marked
inactive and written through the regular-update branch; it is never appended
to the batch's favorited-products accumulator. -/
theorem processProdItem_oos (ora : Oracle) (st : State) (p existing : Product)
    (he : ora.findProductErr p.id = false)
    (hf : findProduct st p.id = some existing)
    (hs : parseStockVal p.stockInfo = some 0) :
    processProdItem ora st p =
      (updateAllFields st existing.id { p with isActive := false },
       { Trace.empty with updates := [existing.id] }, []) := by
  unfold processProdItem
  rw [markIfOutOfStock_zero p hs] at *
  simp [he, hf, markIfOutOfStock_zero p hs]

theorem processProdItem_update (ora : Oracle) (st : State)
    (p existing : Product)
    (he : ora.findProductErr p.id = false)
    (hf : findProduct st p.id = some existing)
    (hniso : ¬((markIfOutOfStock p).isFavorite = true ∧
        (markIfOutOfStock p).isActive = true ∧
        0 < countFavorites st (markIfOutOfStock p).id)) :
    processProdItem ora st p =
      (updateAllFields st existing.id (markIfOutOfStock p),
       { Trace.empty with updates := [existing.id] }, []) := by
  unfold processProdItem
  simp [he, hf, hniso]

/-! Concrete fixtures used by witness and counterexample theorems. -/

/-- A persisted price block: originalPrice 100, discountedPrice 90. -/
def pbOld : Blob :=
  .obj [("originalPrice", .num 100), ("discountedPrice", .num 90),
        ("currency", .str "TRY")]

/-- An incoming price block with a price drop to 80. -/
def pbDrop : Blob :=
  .obj [("originalPrice", .num 80), ("discountedPrice", .num 70),
        ("currency", .str "TRY")]

/-- An incoming price block differing from `pbOld` only in discountedPrice. -/
def pbDiscOnly : Blob :=
  .obj [("originalPrice", .num 100), ("discountedPrice", .num 80),
        ("currency", .str "TRY")]

/-- A stock block with stock 5. -/
def sbFive : Blob := .obj [("stock", .num 5)]

/-- A stock block with stock 0. -/
def sbZero : Blob := .obj [("stock", .num 0)]

/-- The persisted product id 42 of the spec scenarios. -/
def baseProduct : Product :=
  { id := 42, categoryPath := "c", name := "widget", images := .obj [],
    video := "v", seller := .obj [], brand := .obj [], ratingScore := .obj [],
    favoritesCount := "1", commentsCount := "0", addToCartEvents := "0",
    views := "0", orders := "0", topReviews := .obj [],
    sizeRecommendation := "", estimatedDelivery := .obj [],
    stockInfo := sbFive, priceInfo := pbOld, similarProducts := .obj [],
    attributes := .obj [], otherSellers := .obj [], isActive := true,
    isFavorite := true, price := 100 }

/-- All external calls succeed. -/
def oraOk : Oracle :=
  ⟨true, fun _ => false, fun _ => false, fun _ => false, fun _ _ => false⟩

/-- The gRPC dial to the notification gateway fails. -/
def oraNoDial : Oracle := { oraOk with dialOk := false }

/-- The identity lookup for user 2 fails; everything else succeeds. -/
def oraUser2LookupFails : Oracle :=
  { oraOk with findUserErr := fun u => u == 2 }

/-- Dispatch to user 2 fails; everything else succeeds. -/
def oraUser2DispatchFails : Oracle :=
  { oraOk with dispatchErr := fun u _ => u == 2 }

/-- Store with product 42, favorited by users 7 and 8. -/
def st42 : State :=
  { products := [baseProduct], changeLogs := [],
    favorites := [⟨7, 42, 0⟩, ⟨8, 42, 0⟩],
    users := [⟨7, "a@x"⟩, ⟨8, "b@x"⟩] }

/-- Store with product 42, favorited by users 1, 2 and 3. -/
def st3users : State :=
  { products := [baseProduct], changeLogs := [],
    favorites := [⟨1, 42, 0⟩, ⟨2, 42, 0⟩, ⟨3, 42, 0⟩],
    users := [⟨1, "u1@x"⟩, ⟨2, "u2@x"⟩, ⟨3, "u3@x"⟩] }

/-- Incoming snapshot of 42 with the price dropped to 80, stock unchanged. -/
def incDrop : Product := { baseProduct with priceInfo := pbDrop }

/-- Incoming snapshot of 42 differing only in discountedPrice. -/
def incDisc : Product := { baseProduct with priceInfo := pbDiscOnly }

/-- Incoming snapshot of 42 with stock 0 (price unchanged). -/
def incOOS : Product := { baseProduct with stockInfo := sbZero }

/-- Persisted variant of 42 whose price block has no discountedPrice field. -/
def exNoDisc : Product :=
  { baseProduct with priceInfo := .obj [("originalPrice", .num 100)] }

/-- Store holding `exNoDisc`. -/
def stNoDisc : State := { st42 with products := [exNoDisc] }

/-- Incoming snapshot of 42 with price 80 and no discountedPrice field. -/
def incNoDisc : Product :=
  { baseProduct with priceInfo := .obj [("originalPrice", .num 80)] }

/-- A new, non-favorited snapshot with id 1. -/
def pNew : Product := { baseProduct with id := 1, isFavorite := false }

/-- Incoming snapshot of 42 whose stock field is non-numeric. -/
def incBadStock : Product :=
  { baseProduct with stockInfo := .obj [("stock", .str "unknown")] }

/-- The empty store. -/
def stEmpty : State := ⟨[], [], [], []⟩

/-- Shared helper: the product list after a Changed item is the pointwise
two-field overwrite of the matching record. -/
theorem changed_products_map (ora : Oracle) (now : Nat) (st : State)
    (updated existing : Product) (oldP newP oldS newS : Rat)
    (hf : favLookup ora st updated.id = some existing)
    (hp : parseFour existing updated = some (oldP, newP, oldS, newS))
    (hch : oldP ≠ newP ∨ oldS ≠ newS) :
    (processFavItem ora now st updated).1.products =
      st.products.map (fun q =>
        if q.id == existing.id then
          { q with priceInfo := updated.priceInfo,
                   stockInfo := updated.stockInfo }
        else q) := by
  rw [processFavItem_changed ora now st updated existing oldP newP oldS newS
    hf hp hch]
  exact (favNewState_eq st existing updated _).2.1

/-! The claims. -/

/-- Claim C1: for a batch item classified Changed (the parsed persisted and
incoming price or stock differ), the fan-out branch is entered if and only if
the incoming price is strictly below the persisted one; dispatch attempts can
exist only then; and when `newPrice >= oldPrice` (price increase or stock-only
change) no dispatch is attempted for any user while the ChangeRecord is still
written. -/
theorem c1_dispatch_iff_price_drop (ora : Oracle) (now : Nat) (st : State)
    (updated existing : Product) (oldP newP oldS newS : Rat)
    (hf : favLookup ora st updated.id = some existing)
    (hp : parseFour existing updated = some (oldP, newP, oldS, newS))
    (hch : oldP ≠ newP ∨ oldS ≠ newS) :
    ((processFavItem ora now st updated).2.fanouts ≠ [] ↔ newP < oldP) ∧
    ((processFavItem ora now st updated).2.attempts ≠ [] → newP < oldP) ∧
    (oldP ≤ newP →
      (processFavItem ora now st updated).2.attempts = [] ∧
      (processFavItem ora now st updated).2.logs =
        [favLog existing oldP newP oldS newS now]) := by
  rw [processFavItem_changed ora now st updated existing oldP newP oldS newS
    hf hp hch]
  refine ⟨?_, ?_, ?_⟩
  · simp only [favTrace_fanouts]
    constructor
    · intro h
      by_contra hn
      rw [if_neg hn] at h
      exact h rfl
    · intro h
      rw [if_pos h]
      simp
  · exact fun h => favTrace_attempts_ne ora _ existing oldP newP _ h
  · intro hle
    exact ⟨favTrace_attempts_no_drop ora _ existing oldP newP _
        (not_lt.mpr hle),
      favTrace_logs ora _ existing oldP newP _⟩

/-- Claim C1 witness: the price-drop scenario 100 → 80 on product 42. -/
theorem c1_dispatch_iff_price_drop_witness :
    ((processFavItem oraOk 5 st42 incDrop).2.fanouts ≠ [] ↔ (80 : Rat) < 100) ∧
    ((processFavItem oraOk 5 st42 incDrop).2.attempts ≠ [] → (80 : Rat) < 100) ∧
    ((100 : Rat) ≤ 80 →
      (processFavItem oraOk 5 st42 incDrop).2.attempts = [] ∧
      (processFavItem oraOk 5 st42 incDrop).2.logs =
        [favLog baseProduct 100 80 5 5 5]) :=
  c1_dispatch_iff_price_drop oraOk 5 st42 incDrop baseProduct 100 80 5 5
    (by decide) (by decide) (by decide)

/-- Claim C2: a Changed item writes exactly one ChangeRecord carrying the
persisted (old) and incoming (new) price and stock values and the current
timestamp, and updates the persisted product's price and stock blocks to the
incoming snapshot's blobs. Both writes happen for every oracle outcome, i.e.
regardless of whether fan-out later occurs or fails. -/
theorem c2_changed_persistence (ora : Oracle) (now : Nat) (st : State)
    (updated existing : Product) (oldP newP oldS newS : Rat)
    (hf : favLookup ora st updated.id = some existing)
    (hp : parseFour existing updated = some (oldP, newP, oldS, newS))
    (hch : oldP ≠ newP ∨ oldS ≠ newS) :
    (processFavItem ora now st updated).2.logs =
      [⟨existing.id, oldP, newP, oldS, newS, now⟩] ∧
    (processFavItem ora now st updated).1.changeLogs =
      st.changeLogs ++ [⟨existing.id, oldP, newP, oldS, newS, now⟩] ∧
    (processFavItem ora now st updated).1.products =
      st.products.map (fun q =>
        if q.id == existing.id then
          { q with priceInfo := updated.priceInfo,
                   stockInfo := updated.stockInfo }
        else q) ∧
    (processFavItem ora now st updated).2.updates = [existing.id] := by
  rw [processFavItem_changed ora now st updated existing oldP newP oldS newS
    hf hp hch]
  refine ⟨?_, ?_, ?_, ?_⟩
  · simp only [favTrace_logs]
    rfl
  · exact (favNewState_eq st existing updated _).1
  · exact (favNewState_eq st existing updated _).2.1
  · simp only [favTrace_updates]

/-- Claim C2 witness: the price-drop scenario 100 → 80 on product 42. -/
theorem c2_changed_persistence_witness :
    (processFavItem oraOk 5 st42 incDrop).2.logs = [⟨42, 100, 80, 5, 5, 5⟩] ∧
    (processFavItem oraOk 5 st42 incDrop).1.changeLogs =
      st42.changeLogs ++ [⟨42, 100, 80, 5, 5, 5⟩] ∧
    (processFavItem oraOk 5 st42 incDrop).1.products =
      st42.products.map (fun q =>
        if q.id == baseProduct.id then
          { q with priceInfo := incDrop.priceInfo,
                   stockInfo := incDrop.stockInfo }
        else q) ∧
    (processFavItem oraOk 5 st42 incDrop).2.updates = [baseProduct.id] :=
  c2_changed_persistence oraOk 5 st42 incDrop baseProduct 100 80 5 5
    (by decide) (by decide) (by decide)

/-- Claim C10: for a Changed item, the favorites pipeline's persistence step
overwrites only the matching record's price-info and stock-info columns: the
resulting product list is the pointwise two-field overwrite, that overwrite
preserves every other field of the record, and records with a different id
are kept verbatim. -/
theorem c10_update_frame (ora : Oracle) (now : Nat) (st : State)
    (updated existing : Product) (oldP newP oldS newS : Rat)
    (hf : favLookup ora st updated.id = some existing)
    (hp : parseFour existing updated = some (oldP, newP, oldS, newS))
    (hch : oldP ≠ newP ∨ oldS ≠ newS) :
    (processFavItem ora now st updated).1.products =
      st.products.map (fun q =>
        if q.id == existing.id then
          { q with priceInfo := updated.priceInfo,
                   stockInfo := updated.stockInfo }
        else q) ∧
    (∀ q : Product,
      ({ q with priceInfo := updated.priceInfo,
                stockInfo := updated.stockInfo } : Product).id = q.id ∧
      ({ q with priceInfo := updated.priceInfo,
                stockInfo := updated.stockInfo } : Product).name = q.name ∧
      ({ q with priceInfo := updated.priceInfo,
                stockInfo := updated.stockInfo } : Product).categoryPath =
        q.categoryPath ∧
      ({ q with priceInfo := updated.priceInfo,
                stockInfo := updated.stockInfo } : Product).images = q.images ∧
      ({ q with priceInfo := updated.priceInfo,
                stockInfo := updated.stockInfo } : Product).video = q.video ∧
      ({ q with priceInfo := updated.priceInfo,
                stockInfo := updated.stockInfo } : Product).seller = q.seller ∧
      ({ q with priceInfo := updated.priceInfo,
                stockInfo := updated.stockInfo } : Product).brand = q.brand ∧
      ({ q with priceInfo := updated.priceInfo,
                stockInfo := updated.stockInfo } : Product).ratingScore =
        q.ratingScore ∧
      ({ q with priceInfo := updated.priceInfo,
                stockInfo := updated.stockInfo } : Product).favoritesCount =
        q.favoritesCount ∧
      ({ q with priceInfo := updated.priceInfo,
                stockInfo := updated.stockInfo } : Product).commentsCount =
        q.commentsCount ∧
      ({ q with priceInfo := updated.priceInfo,
                stockInfo := updated.stockInfo } : Product).addToCartEvents =
        q.addToCartEvents ∧
      ({ q with priceInfo := updated.priceInfo,
                stockInfo := updated.stockInfo } : Product).views = q.views ∧
      ({ q with priceInfo := updated.priceInfo,
                stockInfo := updated.stockInfo } : Product).orders = q.orders ∧
      ({ q with priceInfo := updated.priceInfo,
                stockInfo := updated.stockInfo } : Product).topReviews =
        q.topReviews ∧
      ({ q with priceInfo := updated.priceInfo,
                stockInfo := updated.stockInfo } : Product).sizeRecommendation =
        q.sizeRecommendation ∧
      ({ q with priceInfo := updated.priceInfo,
                stockInfo := updated.stockInfo } : Product).estimatedDelivery =
        q.estimatedDelivery ∧
      ({ q with priceInfo := updated.priceInfo,
                stockInfo := updated.stockInfo } : Product).similarProducts =
        q.similarProducts ∧
      ({ q with priceInfo := updated.priceInfo,
                stockInfo := updated.stockInfo } : Product).attributes =
        q.attributes ∧
      ({ q with priceInfo := updated.priceInfo,
                stockInfo := updated.stockInfo } : Product).otherSellers =
        q.otherSellers ∧
      ({ q with priceInfo := updated.priceInfo,
                stockInfo := updated.stockInfo } : Product).isActive =
        q.isActive ∧
      ({ q with priceInfo := updated.priceInfo,
                stockInfo := updated.stockInfo } : Product).isFavorite =
        q.isFavorite ∧
      ({ q with priceInfo := updated.priceInfo,
                stockInfo := updated.stockInfo } : Product).price = q.price) ∧
    (∀ q ∈ st.products, q.id ≠ existing.id →
      q ∈ (processFavItem ora now st updated).1.products) := by
  have hmap := changed_products_map ora now st updated existing
    oldP newP oldS newS hf hp hch
  refine ⟨hmap, ?_, ?_⟩
  · intro q
    exact ⟨rfl, rfl, rfl, rfl, rfl, rfl, rfl, rfl, rfl, rfl, rfl, rfl, rfl,
      rfl, rfl, rfl, rfl, rfl, rfl, rfl, rfl, rfl⟩
  · intro q hq hne
    rw [hmap]
    have : (if q.id == existing.id then
        ({ q with priceInfo := updated.priceInfo,
                  stockInfo := updated.stockInfo } : Product)
      else q) = q := by
      rw [if_neg (by simpa using hne)]
    exact this ▸ List.mem_map_of_mem _ hq

/-- Claim C10 witness: the price-drop scenario 100 → 80 on product 42. -/
theorem c10_update_frame_witness :
    (processFavItem oraOk 5 st42 incDrop).1.products =
      st42.products.map (fun q =>
        if q.id == baseProduct.id then
          { q with priceInfo := incDrop.priceInfo,
                   stockInfo := incDrop.stockInfo }
        else q) ∧
    (∀ q ∈ st42.products, q.id ≠ baseProduct.id →
      q ∈ (processFavItem oraOk 5 st42 incDrop).1.products) :=
  ⟨(c10_update_frame oraOk 5 st42 incDrop baseProduct 100 80 5 5
      (by decide) (by decide) (by decide)).1,
   (c10_update_frame oraOk 5 st42 incDrop baseProduct 100 80 5 5
      (by decide) (by decide) (by decide)).2.2⟩

/-- Claim C4 (amended): for a snapshot with an existing persisted product, the
classifier parses only the price blocks' `originalPrice` and the stock blocks'
`stock` numeric fields; given those parses succeed, it classifies the item
Unchanged (a complete no-op) exactly when the parsed originalPrice and stock
are equal, and Changed (one ChangeRecord carrying the four values) otherwise.
The `discountedPrice` field is never parsed, so a snapshot differing from the
persisted record only in discountedPrice is classified Unchanged, not
Changed. -/
theorem c4_classifier_originalPrice_only (ora : Oracle) (now : Nat)
    (st : State) (updated existing : Product) (oldP newP oldS newS : Rat)
    (hf : favLookup ora st updated.id = some existing)
    (hp : parseFour existing updated = some (oldP, newP, oldS, newS)) :
    ((processFavItem ora now st updated).2.logs ≠ [] ↔
      (oldP ≠ newP ∨ oldS ≠ newS)) ∧
    (oldP = newP → oldS = newS →
      processFavItem ora now st updated = (st, Trace.empty)) ∧
    ((oldP ≠ newP ∨ oldS ≠ newS) →
      (processFavItem ora now st updated).2.logs =
        [⟨existing.id, oldP, newP, oldS, newS, now⟩]) := by
  have hchlog : ∀ _ : oldP ≠ newP ∨ oldS ≠ newS,
      (processFavItem ora now st updated).2.logs =
        [⟨existing.id, oldP, newP, oldS, newS, now⟩] := by
    intro hch
    rw [processFavItem_changed ora now st updated existing oldP newP oldS newS
      hf hp hch]
    simp only [favTrace_logs]
    rfl
  refine ⟨⟨?_, ?_⟩, ?_, hchlog⟩
  · intro h
    by_contra hch
    push_neg at hch
    rw [processFavItem_unchanged ora now st updated existing oldP newP oldS
      newS hf hp hch.1 hch.2] at h
    exact h rfl
  · intro hch
    rw [hchlog hch]
    simp
  · intro h1 h2
    exact processFavItem_unchanged ora now st updated existing oldP newP oldS
      newS hf hp h1 h2

/-- Claim C4 witness: the discountedPrice-only scenario (originalPrice and
stock equal) on product 42. -/
theorem c4_classifier_originalPrice_only_witness :
    ((processFavItem oraOk 5 st42 incDisc).2.logs ≠ [] ↔
      ((100 : Rat) ≠ 100 ∨ (5 : Rat) ≠ 5)) ∧
    ((100 : Rat) = 100 → (5 : Rat) = 5 →
      processFavItem oraOk 5 st42 incDisc = (st42, Trace.empty)) ∧
    (((100 : Rat) ≠ 100 ∨ (5 : Rat) ≠ 5) →
      (processFavItem oraOk 5 st42 incDisc).2.logs =
        [⟨baseProduct.id, 100, 100, 5, 5, 5⟩]) :=
  c4_classifier_originalPrice_only oraOk 5 st42 incDisc baseProduct
    100 100 5 5 (by decide) (by decide)

/-- Claim C4 counterexample: persisted and incoming snapshots of product 42
differ only in `discountedPrice` (90 vs 80; originalPrice and stock equal).
The claim says this is classified Changed with a ChangeRecord; the code
classifies it Unchanged — the item is a complete no-op on store and
gateway. -/
theorem c4_counterexample :
    parseDiscountedPrice baseProduct.priceInfo = some 90 ∧
    parseDiscountedPrice incDisc.priceInfo = some 80 ∧
    parseOriginalPrice baseProduct.priceInfo =
      parseOriginalPrice incDisc.priceInfo ∧
    parseStockVal baseProduct.stockInfo = parseStockVal incDisc.stockInfo ∧
    processFavItem oraOk 5 st42 incDisc = (st42, Trace.empty) := by decide

/-- Claim C7: an unchanged snapshot (parsed price and stock both equal the
persisted values) is a no-op on the store and the gateway — no ChangeRecord,
no product update, no dispatch attempt; and any batch delivery that wrote no
change rows left the store unchanged and made no dispatch attempts, so
redelivering it yields the identical result: no new ChangeRecord and no new
dispatch attempts. -/
theorem c7_unchanged_noop_idempotent (ora : Oracle) (now : Nat) :
    (∀ st updated existing oldP newP oldS newS,
      favLookup ora st updated.id = some existing →
      parseFour existing updated = some (oldP, newP, oldS, newS) →
      oldP = newP → oldS = newS →
      processFavItem ora now st updated = (st, Trace.empty)) ∧
    (∀ payload st,
      (handleFavorites ora now payload st).2.logs = [] →
      (handleFavorites ora now payload st).1 = st ∧
      (handleFavorites ora now payload st).2.attempts = [] ∧
      handleFavorites ora now payload (handleFavorites ora now payload st).1 =
        handleFavorites ora now payload st) := by
  constructor
  · intro st updated existing oldP newP oldS newS hf hp h1 h2
    exact processFavItem_unchanged ora now st updated existing oldP newP oldS
      newS hf hp h1 h2
  · intro payload st h
    by_cases hd : ora.dialOk = true
    · cases payload with
      | malformed =>
        rw [handleFavorites_malformed ora now st hd]
        exact ⟨rfl, rfl, handleFavorites_malformed ora now _ hd⟩
      | wellFormed items =>
        rw [handleFavorites_ok ora now items st hd] at h ⊢
        have hb := processFavBatch_logs_nil ora now items st h
        rw [hb]
        refine ⟨rfl, rfl, ?_⟩
        rw [handleFavorites_ok ora now items _ hd]
        exact hb
    · have hdf : ora.dialOk = false := by simpa using hd
      rw [handleFavorites_noDial ora now payload st hdf]
      exact ⟨rfl, rfl, handleFavorites_noDial ora now payload _ hdf⟩

/-- Claim C7 witness: redelivery of the already-persisted snapshot of product
42 (equal price and stock). -/
theorem c7_unchanged_noop_idempotent_witness :
    processFavItem oraOk 5 st42 baseProduct = (st42, Trace.empty) ∧
    ((handleFavorites oraOk 5 (.wellFormed [baseProduct]) st42).1 = st42 ∧
     (handleFavorites oraOk 5 (.wellFormed [baseProduct]) st42).2.attempts =
       [] ∧
     handleFavorites oraOk 5 (.wellFormed [baseProduct])
         (handleFavorites oraOk 5 (.wellFormed [baseProduct]) st42).1 =
       handleFavorites oraOk 5 (.wellFormed [baseProduct]) st42) :=
  ⟨(c7_unchanged_noop_idempotent oraOk 5).1 st42 baseProduct baseProduct
      100 100 5 5 (by decide) (by decide) rfl rfl,
   (c7_unchanged_noop_idempotent oraOk 5).2 (.wellFormed [baseProduct]) st42
      (by decide)⟩

/-- Claim C5: during fan-out for a Changed item with a qualifying price drop:
when the favorite-resolution query succeeds, the attempted user ids are
exactly the favoriting users whose identity lookup succeeds, in order — one
attempt per FavoriteRelation; a single user's failed identity lookup skips
only that user, and a failed dispatch affects only the recorded outcome,
never other users' attempts (the attempt list does not depend on the dispatch
oracle); when every lookup succeeds there is exactly one attempt per
favoriting user; when the favorite-resolution query itself fails there are no
attempts at all while the change is still persisted; and the batch continues
with the remaining items from the item's resulting state. -/
theorem c5_fanout_isolation (ora : Oracle) (now : Nat) (st : State)
    (updated existing : Product) (oldP newP oldS newS : Rat)
    (hf : favLookup ora st updated.id = some existing)
    (hp : parseFour existing updated = some (oldP, newP, oldS, newS))
    (hch : oldP ≠ newP ∨ oldS ≠ newS) (hdrop : newP < oldP) :
    (ora.findFavoritesErr existing.id = false →
      (processFavItem ora now st updated).2.attempts.map (fun a => a.userId) =
        ((favoritesFor st existing.id).filter
          (fun f => (favUserLookup ora st f.userId).isSome)).map
          (fun f => f.userId)) ∧
    (ora.findFavoritesErr existing.id = false →
      (∀ f ∈ favoritesFor st existing.id,
        (favUserLookup ora st f.userId).isSome) →
      (processFavItem ora now st updated).2.attempts.map (fun a => a.userId) =
        (favoritesFor st existing.id).map (fun f => f.userId)) ∧
    (ora.findFavoritesErr existing.id = true →
      (processFavItem ora now st updated).2.attempts = [] ∧
      (processFavItem ora now st updated).2.logs =
        [⟨existing.id, oldP, newP, oldS, newS, now⟩]) ∧
    (∀ rest, processFavBatch ora now (updated :: rest) st =
      ((processFavBatch ora now rest (processFavItem ora now st updated).1).1,
       Trace.append (processFavItem ora now st updated).2
         (processFavBatch ora now rest
           (processFavItem ora now st updated).1).2)) := by
  have hmain : ora.findFavoritesErr existing.id = false →
      (processFavItem ora now st updated).2.attempts.map (fun a => a.userId) =
        ((favoritesFor st existing.id).filter
          (fun f => (favUserLookup ora st f.userId).isSome)).map
          (fun f => f.userId) := by
    intro hne
    rw [processFavItem_changed ora now st updated existing oldP newP oldS newS
      hf hp hch]
    dsimp only
    rw [favTrace_attempts_drop _ _ _ _ _ _ hdrop hne]
    rw [attempts_userIds]
    rfl
  refine ⟨hmain, ?_, ?_, ?_⟩
  · intro hne hall
    rw [hmain hne]
    congr 1
    exact List.filter_eq_self.mpr (fun f hfm => by simpa using hall f hfm)
  · intro herr
    rw [processFavItem_changed ora now st updated existing oldP newP oldS newS
      hf hp hch]
    exact ⟨favTrace_attempts_favErr _ _ _ _ _ _ herr,
      by simp only [favTrace_logs]; rfl⟩
  · intro rest
    exact processFavBatch_cons ora now updated rest st

/-- Claim C5 witness: product 42 favorited by users 1, 2, 3 with a price drop
100 → 80. With user 2's identity lookup failing, the attempts are exactly the
resolvable users; with user 2's dispatch failing instead, all three users are
attempted. -/
theorem c5_fanout_isolation_witness :
    ((processFavItem oraUser2LookupFails 5 st3users incDrop).2.attempts.map
        (fun a => a.userId) =
      ((favoritesFor st3users baseProduct.id).filter
        (fun f =>
          (favUserLookup oraUser2LookupFails st3users f.userId).isSome)).map
        (fun f => f.userId)) ∧
    ((processFavItem oraUser2DispatchFails 5 st3users incDrop).2.attempts.map
        (fun a => a.userId) =
      (favoritesFor st3users baseProduct.id).map (fun f => f.userId)) :=
  ⟨(c5_fanout_isolation oraUser2LookupFails 5 st3users incDrop baseProduct
      100 80 5 5 (by decide) (by decide) (by decide) (by decide)).1
      (by decide),
   (c5_fanout_isolation oraUser2DispatchFails 5 st3users incDrop baseProduct
      100 80 5 5 (by decide) (by decide) (by decide) (by decide)).2.1
      (by decide) (by decide)⟩

/-- Claim C3 (amended): for an incoming snapshot of an existing persisted
product whose parsed stock is exactly 0, the analysis service marks the
activity flag false regardless of the persisted state and writes the record
through the regular-update branch; the product is therefore not appended to
the favorited-products accumulator (not forwarded to the favorites pipeline),
so the step writes no ChangeRecord and makes no dispatch attempts. In the
concrete scenario (persisted id=42, price=100.00, stock=5; incoming id=42,
price=100.00, stock=0) the full pipeline writes zero ChangeRecords — not
one — sets the activity flag false, and makes zero dispatch attempts. -/
theorem c3_out_of_stock_inactive_not_forwarded (ora : Oracle) (st : State)
    (p existing : Product)
    (he : ora.findProductErr p.id = false)
    (hf : findProduct st p.id = some existing)
    (hs : parseStockVal p.stockInfo = some 0) :
    (∀ q ∈ (processProdItem ora st p).1.products,
      q.id = p.id → q.isActive = false) ∧
    (processProdItem ora st p).2.2 = [] ∧
    (processProdItem ora st p).2.1.logs = [] ∧
    (processProdItem ora st p).2.1.attempts = [] := by
  rw [processProdItem_oos ora st p existing he hf hs]
  refine ⟨?_, rfl, rfl, rfl⟩
  intro q hq hid
  have hex : existing.id = p.id := findProduct_id st p.id existing hf
  unfold updateAllFields at hq
  dsimp only at hq
  obtain ⟨q0, hq0, hq0e⟩ := List.mem_map.mp hq
  by_cases h0 : q0.id == existing.id
  · rw [if_pos h0] at hq0e
    rw [← hq0e]
  · rw [if_neg h0] at hq0e
    subst hq0e
    simp only [beq_iff_eq] at h0
    exact absurd (hid.trans hex.symm) h0

/-- Claim C3 witness: the concrete out-of-stock scenario on product 42. -/
theorem c3_out_of_stock_inactive_not_forwarded_witness :
    (∀ q ∈ (processProdItem oraOk st42 incOOS).1.products,
      q.id = incOOS.id → q.isActive = false) ∧
    (processProdItem oraOk st42 incOOS).2.2 = [] ∧
    (processProdItem oraOk st42 incOOS).2.1.logs = [] ∧
    (processProdItem oraOk st42 incOOS).2.1.attempts = [] :=
  c3_out_of_stock_inactive_not_forwarded oraOk st42 incOOS baseProduct
    (by decide) (by decide) (by decide)

/-- Claim C3 counterexample: persisted id=42, price=100.00, stock=5, active
and favorited, with a favoriting user; incoming id=42, price=100.00, stock=0.
The claim says processing writes one ChangeRecord (oldStock=5, newStock=0);
the composed pipeline writes zero ChangeRecords, because the out-of-stock
product is marked inactive and not forwarded to the favorites consumer. The
activity flag is set false and no dispatch is attempted, as the claim also
says. -/
theorem c3_counterexample :
    parseStockVal baseProduct.stockInfo = some 5 ∧
    parseStockVal incOOS.stockInfo = some 0 ∧
    parseOriginalPrice baseProduct.priceInfo =
      parseOriginalPrice incOOS.priceInfo ∧
    (pipeline oraOk oraOk 9 (.wellFormed [incOOS]) st42).2.logs = [] ∧
    ((pipeline oraOk oraOk 9 (.wellFormed [incOOS]) st42).1.products.map
      (fun q => q.isActive)) = [false] ∧
    (pipeline oraOk oraOk 9 (.wellFormed [incOOS]) st42).2.attempts = [] := by
  decide

/-- Claim C6 (amended): a snapshot with no persisted product is classified New
and exactly one create-call is issued. However a second delivery of the same
snapshot does not in general reach an Unchanged classification with no
writes: the analysis service has no Unchanged case and unconditionally issues
one update write for an existing product that is not forwarded to the
favorites pipeline; only the favorites consumer, for forwarded products whose
parsed price and stock are unchanged, performs no writes. -/
theorem c6_new_create_then_update (ora : Oracle) (now : Nat) :
    (∀ st (p : Product), ora.findProductErr p.id = false →
      findProduct st p.id = none →
      (processProdItem ora st p).2.1.creates = [p.id] ∧
      (processProdItem ora st p).1.products = st.products ++ [p] ∧
      (processProdItem ora st p).2.1.updates = []) ∧
    (∀ st (p existing : Product), ora.findProductErr p.id = false →
      findProduct st p.id = some existing →
      ¬((markIfOutOfStock p).isFavorite = true ∧
        (markIfOutOfStock p).isActive = true ∧
        0 < countFavorites st (markIfOutOfStock p).id) →
      (processProdItem ora st p).2.1.updates = [existing.id]) ∧
    (∀ st updated existing oldP newP oldS newS,
      favLookup ora st updated.id = some existing →
      parseFour existing updated = some (oldP, newP, oldS, newS) →
      oldP = newP → oldS = newS →
      processFavItem ora now st updated = (st, Trace.empty)) := by
  refine ⟨?_, ?_, ?_⟩
  · intro st p he hf
    rw [processProdItem_new ora st p he hf]
    exact ⟨rfl, rfl, rfl⟩
  · intro st p existing he hf hniso
    rw [processProdItem_update ora st p existing he hf hniso]
  · intro st updated existing oldP newP oldS newS hf hp h1 h2
    exact processFavItem_unchanged ora now st updated existing oldP newP oldS
      newS hf hp h1 h2

/-- Claim C6 witness: the non-favorited snapshot id 1 created into the empty
store, then redelivered (update write issued); and an unchanged redelivery to
the favorites consumer (no-op). -/
theorem c6_new_create_then_update_witness :
    ((processProdItem oraOk stEmpty pNew).2.1.creates = [pNew.id] ∧
     (processProdItem oraOk stEmpty pNew).1.products =
       stEmpty.products ++ [pNew] ∧
     (processProdItem oraOk stEmpty pNew).2.1.updates = []) ∧
    (processProdItem oraOk (createProduct stEmpty pNew) pNew).2.1.updates =
      [pNew.id] ∧
    processFavItem oraOk 5 st42 baseProduct = (st42, Trace.empty) :=
  ⟨(c6_new_create_then_update oraOk 5).1 stEmpty pNew (by decide) (by decide),
   (c6_new_create_then_update oraOk 5).2.1 (createProduct stEmpty pNew) pNew
     pNew (by decide) (by decide) (by decide),
   (c6_new_create_then_update oraOk 5).2.2 st42 baseProduct baseProduct
     100 100 5 5 (by decide) (by decide) rfl rfl⟩

/-- Claim C6 counterexample: snapshot id 1, not favorited. First delivery to
the empty store creates it (one create-call, as the claim says); the second
delivery of the identical snapshot issues an update write to the store —
refuting the claim that a second delivery of an unchanged snapshot issues no
writes. -/
theorem c6_counterexample :
    (handleProducts oraOk (.wellFormed [pNew]) stEmpty).2.creates = [1] ∧
    (handleProducts oraOk (.wellFormed [pNew])
        (handleProducts oraOk (.wellFormed [pNew]) stEmpty).1).2.updates =
      [1] := by
  decide

/-- Claim C8 (amended): the numeric fields the favorites consumer parses are
the price blocks' `originalPrice` and the stock blocks' `stock`; when any of
these four is missing or non-numeric (in either the persisted or the incoming
data, including an unparseable blob), that single item is skipped as a
complete no-op — no ChangeRecord, no product update, no dispatch attempt —
and the batch proceeds exactly as if the item were absent. The price block's
`discountedPrice` field is never parsed, so its absence or non-numeric value
does not abort the item (see the counterexample). -/
theorem c8_parse_failure_skips_item (ora : Oracle) (now : Nat) (st : State)
    (updated existing : Product)
    (hf : favLookup ora st updated.id = some existing)
    (hp : parseOriginalPrice existing.priceInfo = none ∨
          parseOriginalPrice updated.priceInfo = none ∨
          parseStockVal existing.stockInfo = none ∨
          parseStockVal updated.stockInfo = none) :
    processFavItem ora now st updated = (st, Trace.empty) ∧
    (∀ rest, processFavBatch ora now (updated :: rest) st =
      processFavBatch ora now rest st) := by
  have hp4 : parseFour existing updated = none := by
    unfold parseFour
    rcases h1 : parseOriginalPrice existing.priceInfo with _ | a <;>
      rcases h2 : parseOriginalPrice updated.priceInfo with _ | b <;>
      rcases h3 : parseStockVal existing.stockInfo with _ | c <;>
      rcases h4 : parseStockVal updated.stockInfo with _ | d <;>
      simp_all
  have hitem := processFavItem_parseFail ora now st updated existing hf hp4
  refine ⟨hitem, ?_⟩
  intro rest
  rw [processFavBatch_cons, hitem]
  simp [trace_empty_append]

/-- Claim C8 witness: snapshot of product 42 with a non-numeric stock field,
followed in the batch by the price-drop snapshot, which is processed
normally. -/
theorem c8_parse_failure_skips_item_witness :
    processFavItem oraOk 5 st42 incBadStock = (st42, Trace.empty) ∧
    processFavBatch oraOk 5 [incBadStock, incDrop] st42 =
      processFavBatch oraOk 5 [incDrop] st42 :=
  ⟨(c8_parse_failure_skips_item oraOk 5 st42 incBadStock baseProduct
      (by decide) (Or.inr (Or.inr (Or.inr (by decide))))).1,
   (c8_parse_failure_skips_item oraOk 5 st42 incBadStock baseProduct
      (by decide) (Or.inr (Or.inr (Or.inr (by decide))))).2 [incDrop]⟩

/-- Claim C8 counterexample: the spec names `discountedPrice` as a numeric
field of the price block, and the claim says an item with a missing numeric
field is aborted with no ChangeRecord. Here both the persisted and incoming
price blocks lack `discountedPrice` entirely, yet the item is processed and a
ChangeRecord is written (originalPrice 100 → 80). -/
theorem c8_counterexample :
    parseDiscountedPrice exNoDisc.priceInfo = none ∧
    parseDiscountedPrice incNoDisc.priceInfo = none ∧
    (processFavItem oraOk 5 stNoDisc incNoDisc).2.logs =
      [⟨42, 100, 80, 5, 5, 5⟩] := by
  decide

/-- Claim C9 (amended): the batch-aborting conditions are (a) a decode
failure of the inbound payload and (b), in the favorites consumer only, a
failure to establish the notification-gateway connection — which additionally
raises a fatal log. In both cases nothing is processed and the store is
unchanged. No failure of processing one snapshot or one user propagates
beyond its item: the batch is the sequential composition of its items, and
item processing never raises the fatal flag. -/
theorem c9_batch_abort_conditions (ora : Oracle) (now : Nat) :
    (∀ payload st, ora.dialOk = false →
      handleFavorites ora now payload st =
        (st, { Trace.empty with fatal := true })) ∧
    (∀ st, ora.dialOk = true →
      handleFavorites ora now Payload.malformed st = (st, Trace.empty)) ∧
    (∀ st, handleProducts ora Payload.malformed st = (st, Trace.empty)) ∧
    (∀ items st, ora.dialOk = true →
      handleFavorites ora now (Payload.wellFormed items) st =
        processFavBatch ora now items st ∧
      (processFavBatch ora now items st).2.fatal = false) ∧
    (∀ xs ys st, processFavBatch ora now (xs ++ ys) st =
      ((processFavBatch ora now ys (processFavBatch ora now xs st).1).1,
       Trace.append (processFavBatch ora now xs st).2
         (processFavBatch ora now ys (processFavBatch ora now xs st).1).2)) := by
  refine ⟨?_, ?_, ?_, ?_, ?_⟩
  · intro payload st h
    exact handleFavorites_noDial ora now payload st h
  · intro st h
    exact handleFavorites_malformed ora now st h
  · intro st
    exact handleProducts_malformed ora st
  · intro items st h
    exact ⟨handleFavorites_ok ora now items st h,
      processFavBatch_fatal ora now items st⟩
  · intro xs ys st
    exact processFavBatch_append ora now xs ys st

/-- Claim C9 witness: the dial-failure abort, the malformed-payload abort for
both services, and the well-formed case on the price-drop batch. -/
theorem c9_batch_abort_conditions_witness :
    handleFavorites oraNoDial 3 (.wellFormed [incDrop]) st42 =
      (st42, { Trace.empty with fatal := true }) ∧
    handleFavorites oraOk 3 Payload.malformed st42 = (st42, Trace.empty) ∧
    handleProducts oraOk Payload.malformed st42 = (st42, Trace.empty) ∧
    (handleFavorites oraOk 3 (.wellFormed [incDrop]) st42 =
      processFavBatch oraOk 3 [incDrop] st42 ∧
     (processFavBatch oraOk 3 [incDrop] st42).2.fatal = false) :=
  ⟨(c9_batch_abort_conditions oraNoDial 3).1 (.wellFormed [incDrop]) st42 rfl,
   (c9_batch_abort_conditions oraOk 3).2.1 st42 rfl,
   (c9_batch_abort_conditions oraOk 3).2.2.1 st42,
   (c9_batch_abort_conditions oraOk 3).2.2.2.1 [incDrop] st42 rfl⟩

/-- Claim C9 counterexample: a decodable, non-empty batch (which under a
successful dial would write a ChangeRecord) is aborted — store unchanged,
nothing processed, fatal log raised — when the gRPC dial to the notification
gateway fails. So a decode failure is not the only batch-aborting
condition. -/
theorem c9_counterexample :
    decodePayload (.wellFormed [incDrop]) = some [incDrop] ∧
    handleFavorites oraNoDial 3 (.wellFormed [incDrop]) st42 =
      (st42, { Trace.empty with fatal := true }) ∧
    (handleFavorites oraOk 3 (.wellFormed [incDrop]) st42).2.logs ≠ [] := by
  decide

end Scraper
